import Mathlib

/-!
Verification model of the SSH tunnel core of magicstack-llp/db-backup-go
(file `data/ssh_tunnel.go`).

The Go code is shallowly embedded as follows.

* The mutable `SSHTunnel` struct becomes an immutable Lean structure; every
  method is a pure function from the old state (plus an environment of
  oracle outcomes for the external world) to the new state.
* The `stopChan` channel of the Go struct is modelled by the single bit that
  matters for the code's control flow: whether the channel has been closed.
  (`close` on an already-closed Go channel panics; a `select` with `default`
  on a closed channel takes the closed branch.)
* External effects (binding listeners, dialing SSH, loading keys) are
  represented by an `Env` record of `Except`-valued oracle outcomes, one per
  call site, and by a trace of `Ev` events recording every observable
  side effect (opens and closes carry the handle ids involved).
* A Go panic is modelled by returning `none` (so `Stop` and `Start` return
  `Option` results); a normal return is `some`.
* Go `int` is modelled by `Int`; byte slices by `List Nat` with entries
  understood modulo 256.
-/

namespace DbBackup

/-- Decidable equality for `Except` results, used to evaluate the model on
concrete inputs. -/
instance {ε α : Type} [DecidableEq ε] [DecidableEq α] :
    DecidableEq (Except ε α) := fun a b =>
  match a, b with
  | Except.ok x, Except.ok y =>
      if h : x = y then isTrue (by rw [h])
      else isFalse (fun hc => h (Except.ok.inj hc))
  | Except.error x, Except.error y =>
      if h : x = y then isTrue (by rw [h])
      else isFalse (fun hc => h (Except.error.inj hc))
  | Except.ok _, Except.error _ => isFalse (fun hc => Except.noConfusion hc)
  | Except.error _, Except.ok _ => isFalse (fun hc => Except.noConfusion hc)

/-- State of the Go `SSHTunnel` struct (`data/ssh_tunnel.go`, lines 16-33).
Handles (`net.Listener`, `*ssh.Client`) are opaque ids (`Option Nat`); the
`stopChan` field is modelled by whether it has been closed. -/
structure SSHTunnel where
  sshHost : String
  sshPort : Int
  sshUser : String
  sshKeyPath : String
  remoteHost : String
  remotePort : Int
  bastionHost : String
  bastionPort : Int
  bastionUser : String
  bastionKeyPath : String
  localPort : Int
  server : Option Nat
  bastionConn : Option Nat
  targetConn : Option Nat
  stopChanClosed : Bool
deriving DecidableEq

/-- `NewSSHTunnel` (lines 36-57): pure constructor; `bastionPort = 0`
defaults to 22, everything else is stored verbatim, handles empty,
`stopChan` freshly made (not closed). No I/O happens here. -/
def NewSSHTunnel (sshHost : String) (sshPort : Int) (sshUser : String)
    (sshKeyPath : String) (remoteHost : String) (remotePort : Int)
    (bastionHost : String) (bastionPort : Int) (bastionUser : String)
    (bastionKeyPath : String) : SSHTunnel :=
  let bastionPort := if bastionPort = 0 then 22 else bastionPort
  { sshHost := sshHost
    sshPort := sshPort
    sshUser := sshUser
    sshKeyPath := sshKeyPath
    remoteHost := remoteHost
    remotePort := remotePort
    bastionHost := bastionHost
    bastionPort := bastionPort
    bastionUser := bastionUser
    bastionKeyPath := bastionKeyPath
    localPort := 0
    server := none
    bastionConn := none
    targetConn := none
    stopChanClosed := false }

/-- Observable I/O events of the tunnel code.  Constructors that open a
resource carry `Option Nat`: `some id` is a successful open returning
handle `id`, `none` a failed attempt.  `wrappedConn cId tId` records that
`ssh.NewClientConn`/`ssh.NewClient` took ownership of raw connection `cId`,
so closing client `tId` closes `cId`. -/
inductive Ev where
  | listenProbe (addr : String)
  | closeProbe
  | loadKey (path : String)
  | dialed (host : String) (port : Int) (user : String) (res : Option Nat)
  | relayDialed (host : String) (port : Int) (res : Option Nat)
  | handshaked (host : String) (port : Int) (user : String) (res : Option Nat)
  | wrappedConn (cId : Nat) (tId : Nat)
  | listenLocal (addr : String) (res : Option Nat)
  | closedClient (id : Nat)
  | closedConn (id : Nat)
  | closedListener (id : Nat)
  | forwardSpawned
deriving DecidableEq

/-- Oracle outcomes for the external world during one `Start` attempt, one
field per call site in the Go code (in source order): the `net.Listen`
probe of `findFreePort`, key load + `ssh.Dial` of the bastion
`createSSHClient` call, `bastionClient.Dial` (relay channel), the key load
and `ssh.NewClientConn` handshake of step 3, key load + `ssh.Dial` of the
direct-mode `createSSHClient` call, and the final local `net.Listen`. -/
structure Env where
  freePort : Except String Int
  bastionKey : Except String Unit
  bastionDial : Except String Nat
  relayConn : Except String Nat
  targetKey : Except String Unit
  handshake : Except String Nat
  directKey : Except String Unit
  directDial : Except String Nat
  localListen : Except String Nat

/-- `findFreePort` (lines 60-69): `net.Listen("tcp", ":0")` — note the
wildcard address — then read the assigned port and close the probe
listener (`defer listener.Close()`).  On listen failure returns the error
with no port. -/
def findFreePort (env : Env) : Except String Int × List Ev :=
  match env.freePort with
  | Except.error e => (Except.error e, [Ev.listenProbe ":0"])
  | Except.ok port => (Except.ok port, [Ev.listenProbe ":0", Ev.closeProbe])

/-- `createSSHClient` (lines 94-114): load the key, then `ssh.Dial`.
The two oracle outcomes are passed in by the caller (`Start` has two call
sites with distinct outcomes).  Error messages follow the Go `fmt.Errorf`
wrapping. -/
def createSSHClient (host : String) (port : Int) (user : String)
    (keyPath : String) (keyRes : Except String Unit)
    (dialRes : Except String Nat) : Except String Nat × List Ev :=
  match keyRes with
  | Except.error e => (Except.error e, [Ev.loadKey keyPath])
  | Except.ok _ =>
    match dialRes with
    | Except.error e =>
        (Except.error ("failed to connect to " ++ host ++ ":" ++
            toString port ++ ": " ++ e),
         [Ev.loadKey keyPath, Ev.dialed host port user none])
    | Except.ok id =>
        (Except.ok id, [Ev.loadKey keyPath, Ev.dialed host port user (some id)])

/-- `Stop` (lines 263-282).  The very first statement is
`close(t.stopChan)`; in Go closing an already-closed channel panics, so if
the channel is already closed the call panics (`none`) before touching any
other field.  Otherwise every handle present is closed and cleared and
`localPort` is reset to 0. -/
def Stop (t : SSHTunnel) : Option (SSHTunnel × List Ev) :=
  if t.stopChanClosed then
    none
  else
    let evs1 := match t.server with
      | some lid => [Ev.closedListener lid]
      | none => []
    let evs2 := match t.targetConn with
      | some id => [Ev.closedClient id]
      | none => []
    let evs3 := match t.bastionConn with
      | some id => [Ev.closedClient id]
      | none => []
    some ({ t with
              stopChanClosed := true
              server := none
              targetConn := none
              bastionConn := none
              localPort := 0 },
          evs1 ++ evs2 ++ evs3)

/-- Final part of `Start` (lines 184-198): bind the local listener on
`127.0.0.1:<localPort>`; on failure call `t.Stop()` (which panics if the
stop channel is already closed) and return the error; on success store the
listener and spawn the forwarding goroutine. -/
def finishListen (t : SSHTunnel) (evs : List Ev) (env : Env) :
    Option (SSHTunnel × Except String Int × List Ev) :=
  let addr := "127.0.0.1:" ++ toString t.localPort
  match env.localListen with
  | Except.error e =>
    match Stop t with
    | none => none
    | some (tS, sevs) =>
        some (tS, Except.error ("failed to create local listener: " ++ e),
              evs ++ [Ev.listenLocal addr none] ++ sevs)
  | Except.ok lid =>
      some ({ t with server := some lid }, Except.ok t.localPort,
            evs ++ [Ev.listenLocal addr (some lid), Ev.forwardSpawned])

/-- `Start` (lines 117-199), following the Go control flow line by line:
the `localPort != 0` idempotence guard; `findFreePort`; `t.localPort =
port` (set before any dialing); then either the three-step bastion chain
(with `bastionUser`/`bastionKeyPath` defaulting to the primary values when
empty) or a direct `createSSHClient`; finally the local listener bind.
Returns `none` where the Go code would panic. -/
def Start (t : SSHTunnel) (env : Env) :
    Option (SSHTunnel × Except String Int × List Ev) :=
  if t.localPort ≠ 0 then
    some (t, Except.ok t.localPort, [])
  else
    match findFreePort env with
    | (Except.error e, evs0) =>
        some (t, Except.error ("failed to find free port: " ++ e), evs0)
    | (Except.ok port, evs0) =>
      let t1 := { t with localPort := port }
      if t.bastionHost ≠ "" then
        let bUser := if t.bastionUser = "" then t.sshUser else t.bastionUser
        let bKeyPath :=
          if t.bastionKeyPath = "" then t.sshKeyPath else t.bastionKeyPath
        match createSSHClient t.bastionHost t.bastionPort bUser bKeyPath
            env.bastionKey env.bastionDial with
        | (Except.error e, evs1) =>
            some (t1, Except.error ("failed to connect to bastion: " ++ e),
                  evs0 ++ evs1)
        | (Except.ok bId, evs1) =>
          let t2 := { t1 with bastionConn := some bId }
          match env.relayConn with
          | Except.error e =>
              some (t2,
                Except.error ("failed to dial target through bastion: " ++ e),
                evs0 ++ evs1 ++
                  [Ev.relayDialed t.sshHost t.sshPort none, Ev.closedClient bId])
          | Except.ok cId =>
            let evs2 := evs0 ++ evs1 ++ [Ev.relayDialed t.sshHost t.sshPort (some cId)]
            match env.targetKey with
            | Except.error e =>
                some (t2, Except.error ("failed to load SSH key: " ++ e),
                  evs2 ++ [Ev.loadKey t.sshKeyPath, Ev.closedConn cId,
                           Ev.closedClient bId])
            | Except.ok _ =>
              match env.handshake with
              | Except.error e =>
                  some (t2,
                    Except.error
                      ("failed to create SSH connection through bastion: " ++ e),
                    evs2 ++ [Ev.loadKey t.sshKeyPath,
                      Ev.handshaked t.sshHost t.sshPort t.sshUser none,
                      Ev.closedConn cId, Ev.closedClient bId])
              | Except.ok tId =>
                  let t3 := { t2 with targetConn := some tId }
                  finishListen t3
                    (evs2 ++ [Ev.loadKey t.sshKeyPath,
                      Ev.handshaked t.sshHost t.sshPort t.sshUser (some tId),
                      Ev.wrappedConn cId tId]) env
      else
        match createSSHClient t.sshHost t.sshPort t.sshUser t.sshKeyPath
            env.directKey env.directDial with
        | (Except.error e, evs1) =>
            some (t1, Except.error ("failed to connect to SSH host: " ++ e),
                  evs0 ++ evs1)
        | (Except.ok tId, evs1) =>
            let t2 := { t1 with targetConn := some tId }
            finishListen t2 (evs0 ++ evs1) env

/-- Top of the `forwardTunnel` loop (lines 203-208): the `select` on
`stopChan` with a `default` branch.  Returns `true` exactly when the loop
exits immediately because the stop channel is closed. -/
def forwardPoll (t : SSHTunnel) : Bool := t.stopChanClosed

/-! ### Credential loader (`loadSSHKey`, lines 72-91)

`loadSSHKey` touches the environment (`os.ExpandEnv`, `os.UserHomeDir`,
`os.ReadFile`, `ssh.ParsePrivateKey`), abstracted by a `KeyEnv` record.
Paths are Lean `String`s; for the byte-indexing of `expandedPath[:2]` we
use `String.length`/`String.take`, which agree with Go's byte view on the
ASCII paths at issue. -/

/-- Filesystem/parser oracles used by `loadSSHKey`. -/
structure KeyEnv where
  expandEnv : String → String
  homeDir : String
  readFile : String → Except String (List Nat)
  parseKey : List Nat → Except String Nat

/-- `loadSSHKey` (lines 72-91).  The Go code evaluates `expandedPath[:2]`
unconditionally; slicing a string shorter than 2 bytes panics in Go, which
the model renders as `none`.  Otherwise a leading two-byte `~/` is replaced
by the home directory (`filepath.Join` modelled as separator concatenation),
the file is read and parsed, with the Go error wrappings. -/
def loadSSHKey (env : KeyEnv) (keyPath : String) : Option (Except String Nat) :=
  let expandedPath := env.expandEnv keyPath
  if expandedPath.length < 2 then
    none
  else
    let expandedPath2 :=
      if expandedPath.take 2 = "~/" then
        env.homeDir ++ "/" ++ expandedPath.drop 2
      else expandedPath
    match env.readFile expandedPath2 with
    | Except.error e => some (Except.error ("failed to read SSH key file: " ++ e))
    | Except.ok keyData =>
      match env.parseKey keyData with
      | Except.error e => some (Except.error ("failed to parse SSH key: " ++ e))
      | Except.ok k => some (Except.ok k)

/-! ### The direct-tcpip channel payload (`forwardTunnel`, lines 227-244)

The Go code builds `channelData` by hand: a buffer of size
`4+len(host)+4+4+4+4` written left to right with big-endian `uint32`s at
offsets `0`, `4+len`, `4+len+4`, the host at `4`, the literal bytes
`{127,0,0,1}` at `4+len+8` and a zero originator port at `4+len+12`.  The
writes are contiguous and cover the buffer exactly, so the buffer equals
the concatenation below.  Bytes are `Nat`s below 256. -/

/-- Big-endian `binary.BigEndian.PutUint32`: the four base-256 digits of
`n` (equivalently of `n % 2^32`, matching Go's `uint32` truncation). -/
def putUint32 (n : Nat) : List Nat :=
  [n / 16777216 % 256, n / 65536 % 256, n / 256 % 256, n % 256]

/-- The `channelData` payload of `forwardTunnel` for host bytes
`hostBytes` and `remotePort` (a Go `int`, truncated by `uint32(...)`). -/
def channelData (hostBytes : List Nat) (remotePort : Int) : List Nat :=
  putUint32 hostBytes.length ++ hostBytes ++
    putUint32 (remotePort % 4294967296).toNat ++
    putUint32 4 ++ [127, 0, 0, 1] ++ putUint32 0

/-- Read a big-endian `uint32` from the front of a byte list (standard
SSH wire format decoding). -/
def getUint32 : List Nat → Option (Nat × List Nat)
  | a :: b :: c :: d :: rest => some (((a * 256 + b) * 256 + c) * 256 + d, rest)
  | _ => none

/-- Read `n` raw bytes from the front of a byte list. -/
def getBytes (n : Nat) (l : List Nat) : Option (List Nat × List Nat) :=
  if n ≤ l.length then some (l.take n, l.drop n) else none

/-- The typed content of a `direct-tcpip` open request: host-to-connect,
port-to-connect, originator address bytes, originator port. -/
structure RelayRequest where
  hostName : List Nat
  port : Nat
  origAddr : List Nat
  origPort : Nat
deriving DecidableEq

/-- Decode a `direct-tcpip` payload per the standard relay-request format:
string host, uint32 port, string originator address, uint32 originator
port (each string a uint32 length followed by that many bytes). -/
def decodeRelayRequest (data : List Nat) : Option RelayRequest :=
  match getUint32 data with
  | none => none
  | some (hlen, r1) =>
    match getBytes hlen r1 with
    | none => none
    | some (host, r2) =>
      match getUint32 r2 with
      | none => none
      | some (port, r3) =>
        match getUint32 r3 with
        | none => none
        | some (alen, r4) =>
          match getBytes alen r4 with
          | none => none
          | some (oaddr, r5) =>
            match getUint32 r5 with
            | none => none
            | some (oport, _) =>
                some { hostName := host, port := port,
                       origAddr := oaddr, origPort := oport }

/-- The bytes of a textual (ASCII) string, for comparing the payload's
originator-address field with the text `"127.0.0.1"`. -/
def asciiBytes (s : String) : List Nat := s.data.map Char.toNat

/-! ### Event-trace classification helpers -/

/-- Handle id of a successfully opened SSH client, if the event is one
(`ssh.Dial` in `createSSHClient`, or the step-3 handshake client). -/
def clientOf : Ev → Option Nat
  | Ev.dialed _ _ _ (some id) => some id
  | Ev.handshaked _ _ _ (some id) => some id
  | _ => none

/-- Handle id of a successfully opened raw relay connection, if any. -/
def connOf : Ev → Option Nat
  | Ev.relayDialed _ _ (some id) => some id
  | _ => none

/-- Handle id of a successfully bound local listener, if any (the
`findFreePort` probe is tracked separately via `closeProbe`). -/
def listenerOf : Ev → Option Nat
  | Ev.listenLocal _ (some id) => some id
  | _ => none

/-- Ids of all SSH clients opened in a trace. -/
def openedClients (evs : List Ev) : List Nat := evs.filterMap clientOf

/-- Ids of all raw relay connections opened in a trace. -/
def openedConns (evs : List Ev) : List Nat := evs.filterMap connOf

/-- Ids of all local listeners bound in a trace. -/
def openedListeners (evs : List Ev) : List Nat := evs.filterMap listenerOf

/-- A raw relay connection `c` counts as released in a trace if it was
closed directly, or if it was wrapped into an SSH client that was closed
(closing an `ssh.Client` closes its underlying connection). -/
def connReleased (evs : List Ev) (c : Nat) : Prop :=
  Ev.closedConn c ∈ evs ∨
    ∃ k, Ev.wrappedConn c k ∈ evs ∧ Ev.closedClient k ∈ evs

/-! ### Concrete fixtures for evaluating the model -/

/-- A two-hop tunnel configuration. -/
def demoBastionTunnel : SSHTunnel :=
  NewSSHTunnel "ssh.internal" 22 "deploy" "/keys/primary" "db.internal" 5432
    "bastion.internal" 2222 "jump" "/keys/jump"

/-- A direct (no bastion) tunnel configuration. -/
def demoDirectTunnel : SSHTunnel :=
  NewSSHTunnel "ssh.internal" 22 "deploy" "/keys/primary" "db.internal" 5432
    "" 0 "" ""

/-- Environment where the bastion `ssh.Dial` is refused. -/
def envBastionDialFail : Env :=
  { freePort := Except.ok 45000
    bastionKey := Except.ok ()
    bastionDial := Except.error "connection refused"
    relayConn := Except.error "unused"
    targetKey := Except.error "unused"
    handshake := Except.error "unused"
    directKey := Except.error "unused"
    directDial := Except.error "unused"
    localListen := Except.error "unused" }

/-- Environment where the bastion session opens (handle 3) but the relay
channel to the primary host fails. -/
def envRelayFail : Env :=
  { envBastionDialFail with
      freePort := Except.ok 46000
      bastionDial := Except.ok 3
      relayConn := Except.error "no route to host" }

/-- Environment where bastion and relay succeed but the second handshake
over the relay channel fails. -/
def envHandshakeFail : Env :=
  { envBastionDialFail with
      freePort := Except.ok 47000
      bastionDial := Except.ok 3
      relayConn := Except.ok 4
      targetKey := Except.ok ()
      handshake := Except.error "ssh: handshake failed" }

/-- Environment where the direct-mode `ssh.Dial` fails. -/
def envDirectDialFail : Env :=
  { freePort := Except.ok 38000
    bastionKey := Except.error "unused"
    bastionDial := Except.error "unused"
    relayConn := Except.error "unused"
    targetKey := Except.error "unused"
    handshake := Except.error "unused"
    directKey := Except.ok ()
    directDial := Except.error "host unreachable"
    localListen := Except.error "unused" }

/-- Environment where a direct-mode start fully succeeds (client handle 7,
listener handle 9). -/
def envDirectOk : Env :=
  { envDirectDialFail with
      freePort := Except.ok 40000
      directDial := Except.ok 7
      localListen := Except.ok 9 }

/-- Identity filesystem environment for the credential loader: no
variable expansion, and a filesystem with no readable keys. -/
def idKeyEnv : KeyEnv :=
  { expandEnv := fun s => s
    homeDir := "/home/deploy"
    readFile := fun _ => Except.error "open: no such file or directory"
    parseKey := fun _ => Except.error "ssh: no key found" }

end DbBackup

/-! ## Theorems -/

namespace DbBackup

/-- C10: `NewSSHTunnel` with `bastionPort = 0` stores 22, any nonzero
`bastionPort` is stored unchanged, every other argument is stored
verbatim, and the constructed tunnel is idle (no port, no handles, stop
channel open).  The constructor consumes no environment, so no network
activity can be modelled for it. -/
theorem newSSHTunnel_fields (sshHost : String) (sshPort : Int)
    (sshUser sshKeyPath remoteHost : String) (remotePort : Int)
    (bastionHost : String) (bastionPort : Int)
    (bastionUser bastionKeyPath : String) :
    NewSSHTunnel sshHost sshPort sshUser sshKeyPath remoteHost remotePort
        bastionHost bastionPort bastionUser bastionKeyPath =
      { sshHost := sshHost
        sshPort := sshPort
        sshUser := sshUser
        sshKeyPath := sshKeyPath
        remoteHost := remoteHost
        remotePort := remotePort
        bastionHost := bastionHost
        bastionPort := if bastionPort = 0 then 22 else bastionPort
        bastionUser := bastionUser
        bastionKeyPath := bastionKeyPath
        localPort := 0
        server := none
        bastionConn := none
        targetConn := none
        stopChanClosed := false } := rfl

/-- C2 counterexample: on a freshly constructed tunnel the first `Stop()`
returns normally but the second `Stop()` panics (`close` of an already
closed channel), refuting "calling Stop() any number of times in a row
never panics". -/
theorem stop_twice_panics_cex :
    (Stop demoDirectTunnel).map (fun r => Stop r.1) = some none := by
  decide

/-- C2 amended: `Stop()` panics exactly when the tunnel's stop channel is
already closed; in particular the first `Stop()` on a freshly constructed
tunnel (started or not) never panics, but since the channel is never
reopened, every later `Stop()` panics. -/
theorem stop_panic_iff (t : SSHTunnel) :
    (Stop t = none ↔ t.stopChanClosed = true) ∧
    (∀ (a : String) (b : Int) (c d e : String) (f : Int) (g : String)
        (h : Int) (i j : String),
      (Stop (NewSSHTunnel a b c d e f g h i j)).isSome = true) := by
  constructor
  · unfold Stop
    by_cases hc : t.stopChanClosed <;> simp [hc]
  · intro a b c d e f g h i j
    simp [Stop, NewSSHTunnel]

/-- C5: the code is wrong here.  `loadSSHKey` evaluates `expandedPath[:2]`
before any length check, so every key path whose environment-expanded form
is shorter than two bytes — including `""` and `"~"` — panics with a
slice-bounds violation instead of skipping the `~/` expansion, while paths
of length at least two are handled without panic. -/
theorem loadSSHKey_short_path_panics :
    (loadSSHKey idKeyEnv "~").isNone = true ∧
    (loadSSHKey idKeyEnv "").isNone = true ∧
    (loadSSHKey idKeyEnv "~/key").isSome = true ∧
    (loadSSHKey idKeyEnv "ab").isSome = true := by
  decide

/-- C9 counterexample: the port probe binds the wildcard address `":0"`
(all interfaces), not the loopback address `"127.0.0.1:0"` the claim
states. -/
theorem findFreePort_wildcard_cex :
    Ev.listenProbe "127.0.0.1:0" ∉ (findFreePort envDirectOk).2 ∧
    Ev.listenProbe ":0" ∈ (findFreePort envDirectOk).2 ∧
    (findFreePort envDirectOk).1 = Except.ok 40000 := by
  decide

/-- C9 amended: every successful port allocation binds a TCP probe
listener to port 0 on the wildcard address `":0"` (all interfaces, not
only loopback), returns the system-assigned port, and closes the probe
before returning; if the bind fails the allocation returns the error and
no port. -/
theorem findFreePort_spec (env : Env) :
    (∀ p : Int, env.freePort = Except.ok p →
      findFreePort env = (Except.ok p, [Ev.listenProbe ":0", Ev.closeProbe])) ∧
    (∀ e : String, env.freePort = Except.error e →
      findFreePort env = (Except.error e, [Ev.listenProbe ":0"])) := by
  constructor
  · intro p hp
    unfold findFreePort
    rw [hp]
  · intro e he
    unfold findFreePort
    rw [he]

/-- Witness for `findFreePort_spec` at a concrete environment. -/
theorem findFreePort_spec_witness :
    findFreePort envDirectOk =
      (Except.ok 40000, [Ev.listenProbe ":0", Ev.closeProbe]) :=
  (findFreePort_spec envDirectOk).1 40000 rfl

/-- Big-endian 32-bit round trip: reading back a `putUint32` recovers the
value (for values below `2^32`) and leaves the rest of the buffer. -/
theorem getUint32_putUint32 (n : Nat) (h : n < 4294967296)
    (rest : List Nat) :
    getUint32 (putUint32 n ++ rest) = some (n, rest) := by
  simp only [putUint32, List.cons_append, List.nil_append, getUint32]
  have hn : ((n / 16777216 % 256 * 256 + n / 65536 % 256) * 256 +
      n / 256 % 256) * 256 + n % 256 = n := by omega
  rw [hn]

/-- Reading back `l.length` bytes from `l ++ rest` yields `l` and `rest`. -/
theorem getBytes_append (l rest : List Nat) :
    getBytes l.length (l ++ rest) = some (l, rest) := by
  simp [getBytes]

/-- C8 counterexample: decoding the payload per the standard relay-request
format recovers the four raw bytes `127, 0, 0, 1` as the originator
address, not the nine-byte text `"127.0.0.1"` the claim states (the Go
code copies the binary IPv4 address where the wire format carries an
address string). -/
theorem channelData_origin_text_cex :
    (decodeRelayRequest (channelData (asciiBytes "db.internal") 5432)).map
        RelayRequest.origAddr = some [127, 0, 0, 1] ∧
    [127, 0, 0, 1] ≠ asciiBytes "127.0.0.1" := by
  decide

/-- C8 amended: for every remote-host byte string (of length below `2^32`)
and every in-range remote port, decoding the `channelData` payload per the
standard relay-request format recovers exactly the host, the port,
originator address bytes `[127, 0, 0, 1]` (the raw IPv4 address, not the
text `"127.0.0.1"`), and originator port 0. -/
theorem channelData_roundtrip (host : List Nat) (port : Int)
    (hh : host.length < 4294967296) (h0 : 0 ≤ port)
    (h1 : port < 4294967296) :
    decodeRelayRequest (channelData host port) =
      some { hostName := host, port := port.toNat,
             origAddr := [127, 0, 0, 1], origPort := 0 } := by
  have hmod : port % 4294967296 = port := Int.emod_eq_of_lt h0 h1
  have hlt : port.toNat < 4294967296 := by omega
  unfold channelData decodeRelayRequest
  simp only [List.append_assoc, hmod, getUint32_putUint32 host.length hh,
    getBytes_append, getUint32_putUint32 port.toNat hlt,
    getUint32_putUint32 4 (by decide),
    show getBytes 4 ([127, 0, 0, 1] ++ putUint32 0) =
      some ([127, 0, 0, 1], putUint32 0) from rfl,
    show getUint32 (putUint32 0) = some (0, []) from rfl]

/-- Witness for `channelData_roundtrip` at a concrete host and port. -/
theorem channelData_roundtrip_witness :
    decodeRelayRequest (channelData [120] 5432) =
      some { hostName := [120], port := 5432,
             origAddr := [127, 0, 0, 1], origPort := 0 } :=
  channelData_roundtrip [120] 5432 (by decide) (by decide) (by decide)

/-- Helper: on a successful `Start` the returned port equals the stored
`localPort`, and either the idempotence guard fired (state unchanged,
nonzero port) or a full setup ran (port from the allocator, listener
stored). -/
theorem start_ok_state (t : SSHTunnel) (env : Env) (st : SSHTunnel)
    (p : Int) (evs : List Ev)
    (h : Start t env = some (st, Except.ok p, evs)) :
    st.localPort = p ∧
    ((st = t ∧ ¬p = 0) ∨
      (env.freePort = Except.ok p ∧ st.server.isSome = true)) := by
  obtain ⟨f, bk, bd, rc, tk, hsk, dk, dd, ll⟩ := env
  rcases f with e | q
  all_goals (
    unfold Start findFreePort createSSHClient finishListen Stop at h
    dsimp only at h ⊢
    repeat' split at h
    all_goals (try simp_all)
    all_goals (obtain ⟨rfl, rfl, rfl⟩ := h; simp_all))

/-- C6: `Start` is idempotent while running: after a successful `Start`
(under the real-world condition that the allocator never hands out port
0), any further `Start` with any environment returns the same state, the
same port, no error, and performs no I/O at all (empty event trace). -/
theorem start_idempotent (t : SSHTunnel) (env env' : Env)
    (hp : ∀ q : Int, env.freePort = Except.ok q → ¬q = 0)
    (st : SSHTunnel) (p : Int) (evs : List Ev)
    (h : Start t env = some (st, Except.ok p, evs)) :
    Start st env' = some (st, Except.ok p, []) := by
  obtain ⟨hlp, hrest⟩ := start_ok_state t env st p evs h
  have hpne : ¬p = 0 := by
    rcases hrest with ⟨-, hne⟩ | ⟨hfp, -⟩
    · exact hne
    · exact hp p hfp
  unfold Start
  rw [if_pos (by rw [hlp]; exact hpne), hlp]

/-- Witness for `start_idempotent`: a second `Start` on the state produced
by a successful direct-mode `Start` is a no-op returning the same port. -/
theorem start_idempotent_witness :
    Start
      { demoDirectTunnel with
          localPort := 40000
          targetConn := some 7
          server := some 9 } envDirectOk =
      some
        ({ demoDirectTunnel with
            localPort := 40000
            targetConn := some 7
            server := some 9 }, Except.ok 40000, []) :=
  start_idempotent demoDirectTunnel envDirectOk envDirectOk
    (fun q hq => by
      simp only [envDirectOk, envDirectDialFail] at hq
      injection hq with hv
      omega)
    _ 40000 _ rfl

/-- C4 counterexample: after a failed direct-mode `Start` (dial refused),
the tunnel has `localPort = 38000` but no listener, so the claimed
equivalence `localPort ≠ 0 ↔ listener ≠ nil` is violated at an observable
point (an error return of `Start`). -/
theorem start_invariant_broken_cex :
    (Start demoDirectTunnel envDirectDialFail).map
        (fun r => (r.1.localPort, r.1.server)) = some (38000, none) ∧
    (Start demoDirectTunnel envDirectDialFail).map
        (fun r => match r.2.1 with
          | Except.error _ => true
          | Except.ok _ => false) = some true ∧
    ¬ ((38000 : Int) ≠ 0 ↔ (none : Option Nat).isSome = true) := by
  decide

/-- C4 amended: the equivalence `localPort ≠ 0 ↔ listener ≠ nil` (the
source has no separate `running` field; the `Start` guard reads
`localPort` and the forwarder uses `server`) holds after construction,
after every successful `Start` (given a nonzero allocator and that it held
before), and after every non-panicking `Stop` — but not after failed
`Start` calls, as the counterexample shows. -/
theorem state_invariant_points (t : SSHTunnel) (env : Env) :
    (∀ (a : String) (b : Int) (c d e : String) (f : Int) (g : String)
        (h : Int) (i j : String),
      ((NewSSHTunnel a b c d e f g h i j).localPort ≠ 0 ↔
        (NewSSHTunnel a b c d e f g h i j).server.isSome = true)) ∧
    (∀ (st : SSHTunnel) (p : Int) (evs : List Ev),
      (t.localPort ≠ 0 ↔ t.server.isSome = true) →
      (∀ q : Int, env.freePort = Except.ok q → ¬q = 0) →
      Start t env = some (st, Except.ok p, evs) →
      (st.localPort ≠ 0 ↔ st.server.isSome = true)) ∧
    (∀ (t' : SSHTunnel) (evs : List Ev), Stop t = some (t', evs) →
      (t'.localPort ≠ 0 ↔ t'.server.isSome = true)) := by
  refine ⟨?_, ?_, ?_⟩
  · intro a b c d e f g h i j
    simp [NewSSHTunnel]
  · intro st p evs hinv hp h
    obtain ⟨hlp, hrest⟩ := start_ok_state t env st p evs h
    rcases hrest with ⟨rfl, hne⟩ | ⟨hfp, hserver⟩
    · exact hinv
    · rw [hlp, hserver]
      simp [hp p hfp]
  · intro t' evs h
    unfold Stop at h
    by_cases hc : t.stopChanClosed
    · rw [if_pos hc] at h
      exact absurd h (by simp)
    · rw [if_neg hc] at h
      simp only [Option.some.injEq, Prod.mk.injEq] at h
      obtain ⟨rfl, rfl⟩ := h
      simp

/-- Witness for `state_invariant_points`: the equivalence holds in the
state produced by a successful direct-mode `Start` from a fresh tunnel. -/
theorem state_invariant_points_witness :
    (({ demoDirectTunnel with
          localPort := 40000
          targetConn := some 7
          server := some 9 } : SSHTunnel).localPort ≠ 0 ↔
      ({ demoDirectTunnel with
          localPort := 40000
          targetConn := some 7
          server := some 9 } : SSHTunnel).server.isSome = true) :=
  (state_invariant_points demoDirectTunnel envDirectOk).2.1 _ 40000 _
    (by decide)
    (fun q hq => by
      simp only [envDirectOk, envDirectDialFail] at hq
      injection hq with hv
      omega)
    rfl

/-- C1 counterexample: a bastion-mode `Start` whose bastion dial fails
returns an error yet leaves `localPort = 45000` behind — the tunnel is not
back in its pre-call idle state (and the next `Start` would wrongly
return that stale port as a success). -/
theorem start_fail_stale_state_cex :
    (Start demoBastionTunnel envBastionDialFail).map
        (fun r => (r.1.localPort, r.1.server, r.1.targetConn)) =
      some (45000, none, none) ∧
    (Start demoBastionTunnel envBastionDialFail).map
        (fun r => match r.2.1 with
          | Except.error _ => true
          | Except.ok _ => false) = some true ∧
    (45000 : Int) ≠ 0 := by
  decide

set_option maxHeartbeats 8000000 in
/-- C1 amended: when `Start` on an idle tunnel returns an error, every SSH
session opened during the attempt has been closed, every relay connection
has been closed or was absorbed into a closed session, no local listener
was left bound, and `server`/`targetConn` are clear — but (per the
counterexample) `localPort` and `bastionConn` are not generally reset. -/
theorem start_error_releases_resources (t : SSHTunnel) (env : Env)
    (h0 : t.localPort = 0) (hsv : t.server = none)
    (htc : t.targetConn = none) (hbc : t.bastionConn = none)
    (st : SSHTunnel) (e : String) (evs : List Ev)
    (h : Start t env = some (st, Except.error e, evs)) :
    (∀ c ∈ openedClients evs, Ev.closedClient c ∈ evs) ∧
    (∀ c ∈ openedConns evs, connReleased evs c) ∧
    openedListeners evs = [] ∧
    st.server = none ∧ st.targetConn = none := by
  obtain ⟨sh, sp, su, skp, rh, rp, bh, bp, bu, bkp, lp, sv, bc, tc, scc⟩ := t
  obtain ⟨f, bk, bd, rc, tk, hsk, dk, dd, ll⟩ := env
  dsimp only at h0 hsv htc hbc h
  subst h0 hsv htc hbc
  rcases f with e0 | q <;> rcases bk with e1 | u1 <;> rcases bd with e2 | b2 <;>
    rcases dk with e3 | u3 <;> rcases dd with e4 | d4 <;> cases scc
  all_goals (
    unfold Start findFreePort createSSHClient finishListen Stop at h
    dsimp only at h ⊢
    repeat' split at h
    all_goals (try (simp at h))
    all_goals (try (obtain ⟨rfl, rfl, rfl⟩ := h))
    all_goals (try (simp_all [openedClients, openedConns, openedListeners,
      clientOf, connOf, listenerOf, connReleased]))
    all_goals (try (casesm* _ ∧ _))
    all_goals (try subst_vars)
    all_goals (try (simp [openedClients, openedConns, openedListeners,
      clientOf, connOf, listenerOf, connReleased])))

/-- Witness for `start_error_releases_resources`: in the relay-failure run
the opened bastion session (handle 3) is closed before the error
returns. -/
theorem start_error_releases_resources_witness :
    Ev.closedClient 3 ∈
      [Ev.listenProbe ":0", Ev.closeProbe, Ev.loadKey "/keys/jump",
       Ev.dialed "bastion.internal" 2222 "jump" (some 3),
       Ev.relayDialed "ssh.internal" 22 none, Ev.closedClient 3] :=
  (start_error_releases_resources demoBastionTunnel envRelayFail
      rfl rfl rfl rfl _ _ _ rfl).1 3 (by decide)

/-- C3 counterexample: `Stop` on a fresh tunnel resets all handles, but
the resulting state is not the pre-`Start` state: the stop channel is now
closed, so a subsequent (successful) `Start` produces a tunnel whose
forward loop exits immediately (`forwardPoll = true`) — it cannot
actually serve connections again. -/
theorem stop_state_not_pristine_cex :
    (Stop demoDirectTunnel).map (fun r => r.1.stopChanClosed) =
      some true ∧
    demoDirectTunnel.stopChanClosed = false ∧
    (Stop demoDirectTunnel).map (fun r => decide (r.1 = demoDirectTunnel)) =
      some false ∧
    (Stop demoDirectTunnel).map
        (fun r => (Start r.1 envDirectOk).map (fun s => forwardPoll s.1)) =
      some (some (some true)) := by
  decide

/-- C3 amended: every non-panicking `Stop` clears `localPort` and all
three handles and preserves the configuration, and a subsequent
direct-mode `Start` returns successfully — but the stop channel stays
closed, so the restarted tunnel's forward loop exits at its first poll. -/
theorem stop_resets_handles (t t' : SSHTunnel) (evs : List Ev)
    (h : Stop t = some (t', evs)) :
    (t'.localPort = 0 ∧ t'.server = none ∧ t'.targetConn = none ∧
      t'.bastionConn = none ∧ t'.stopChanClosed = true ∧
      t'.sshHost = t.sshHost ∧ t'.sshPort = t.sshPort ∧
      t'.sshUser = t.sshUser ∧ t'.sshKeyPath = t.sshKeyPath ∧
      t'.remoteHost = t.remoteHost ∧ t'.remotePort = t.remotePort ∧
      t'.bastionHost = t.bastionHost ∧ t'.bastionPort = t.bastionPort ∧
      t'.bastionUser = t.bastionUser ∧
      t'.bastionKeyPath = t.bastionKeyPath) ∧
    (∀ (env : Env) (p : Int) (tId lid : Nat),
      t'.bastionHost = "" →
      env.freePort = Except.ok p → env.directKey = Except.ok () →
      env.directDial = Except.ok tId → env.localListen = Except.ok lid →
      Start t' env =
        some
          ({ t' with
              localPort := p
              targetConn := some tId
              server := some lid },
          Except.ok p,
          [Ev.listenProbe ":0", Ev.closeProbe, Ev.loadKey t'.sshKeyPath,
           Ev.dialed t'.sshHost t'.sshPort t'.sshUser (some tId),
           Ev.listenLocal ("127.0.0.1:" ++ toString p) (some lid),
           Ev.forwardSpawned]) ∧
      forwardPoll
        { t' with
            localPort := p
            targetConn := some tId
            server := some lid } = true) := by
  unfold Stop at h
  by_cases hc : t.stopChanClosed
  · rw [if_pos hc] at h
    exact absurd h (by simp)
  · rw [if_neg hc] at h
    simp only [Option.some.injEq, Prod.mk.injEq] at h
    obtain ⟨rfl, rfl⟩ := h
    refine ⟨⟨rfl, rfl, rfl, rfl, rfl, rfl, rfl, rfl, rfl, rfl, rfl, rfl,
      rfl, rfl, rfl⟩, ?_⟩
    intro env p tId lid hb hf hk hd hl
    obtain ⟨f, bk, bd, rc, tk, hsk, dk, dd, ll⟩ := env
    dsimp only at hb hf hk hd hl
    subst hf hk hd hl
    refine ⟨?_, rfl⟩
    simp [Start, findFreePort, createSSHClient, finishListen, hb]

/-- Witness for `stop_resets_handles`: stop a fresh direct tunnel, then
restart it successfully; the restarted state still has the stop channel
closed. -/
theorem stop_resets_handles_witness :
    Start { demoDirectTunnel with stopChanClosed := true } envDirectOk =
      some
        ({ demoDirectTunnel with
            stopChanClosed := true
            localPort := 40000
            targetConn := some 7
            server := some 9 },
        Except.ok 40000,
        [Ev.listenProbe ":0", Ev.closeProbe, Ev.loadKey "/keys/primary",
         Ev.dialed "ssh.internal" 22 "deploy" (some 7),
         Ev.listenLocal "127.0.0.1:40000" (some 9), Ev.forwardSpawned]) :=
  ((stop_resets_handles demoDirectTunnel
      { demoDirectTunnel with stopChanClosed := true } [] rfl).2
    envDirectOk 40000 7 9 rfl rfl rfl rfl rfl).1

/-- C7: chained-mode transport establishment follows the three steps with
per-step cleanup and credential defaulting.  If the bastion dial fails,
the returned error names the bastion and the trace shows nothing was
opened; if the relay channel fails, the bastion session is closed before
the relay error returns; if the second handshake fails, both the relay
connection and the bastion session are closed before the handshake error
returns.  The `if`-terms in the traces show `bastionUser`/`bastionKeyPath`
defaulting to `sshUser`/`sshKeyPath` exactly when empty. -/
theorem start_bastion_steps (t : SSHTunnel) (env : Env) (p : Int)
    (h0 : t.localPort = 0) (hb : t.bastionHost ≠ "")
    (hf : env.freePort = Except.ok p) :
    (∀ e : String, env.bastionKey = Except.ok () →
      env.bastionDial = Except.error e →
      Start t env = some ({ t with localPort := p },
        Except.error ("failed to connect to bastion: " ++
          ("failed to connect to " ++ t.bastionHost ++ ":" ++
            toString t.bastionPort ++ ": " ++ e)),
        [Ev.listenProbe ":0", Ev.closeProbe,
         Ev.loadKey
           (if t.bastionKeyPath = "" then t.sshKeyPath else t.bastionKeyPath),
         Ev.dialed t.bastionHost t.bastionPort
           (if t.bastionUser = "" then t.sshUser else t.bastionUser) none])) ∧
    (∀ (bId : Nat) (e : String), env.bastionKey = Except.ok () →
      env.bastionDial = Except.ok bId → env.relayConn = Except.error e →
      Start t env = some
        ({ t with localPort := p, bastionConn := some bId },
        Except.error ("failed to dial target through bastion: " ++ e),
        [Ev.listenProbe ":0", Ev.closeProbe,
         Ev.loadKey
           (if t.bastionKeyPath = "" then t.sshKeyPath else t.bastionKeyPath),
         Ev.dialed t.bastionHost t.bastionPort
           (if t.bastionUser = "" then t.sshUser else t.bastionUser)
           (some bId),
         Ev.relayDialed t.sshHost t.sshPort none, Ev.closedClient bId])) ∧
    (∀ (bId cId : Nat) (e : String), env.bastionKey = Except.ok () →
      env.bastionDial = Except.ok bId → env.relayConn = Except.ok cId →
      env.targetKey = Except.ok () → env.handshake = Except.error e →
      Start t env = some
        ({ t with localPort := p, bastionConn := some bId },
        Except.error ("failed to create SSH connection through bastion: " ++ e),
        [Ev.listenProbe ":0", Ev.closeProbe,
         Ev.loadKey
           (if t.bastionKeyPath = "" then t.sshKeyPath else t.bastionKeyPath),
         Ev.dialed t.bastionHost t.bastionPort
           (if t.bastionUser = "" then t.sshUser else t.bastionUser)
           (some bId),
         Ev.relayDialed t.sshHost t.sshPort (some cId),
         Ev.loadKey t.sshKeyPath,
         Ev.handshaked t.sshHost t.sshPort t.sshUser none,
         Ev.closedConn cId, Ev.closedClient bId])) := by
  obtain ⟨f, bk, bd, rc, tk, hsk, dk, dd, ll⟩ := env
  dsimp only at hf ⊢
  subst hf
  refine ⟨?_, ?_, ?_⟩
  · intro e hbk hbd
    subst hbk hbd
    simp [Start, findFreePort, createSSHClient, h0, hb]
  · intro bId e hbk hbd hrc
    subst hbk hbd hrc
    simp [Start, findFreePort, createSSHClient, h0, hb]
  · intro bId cId e hbk hbd hrc htk hhs
    subst hbk hbd hrc htk hhs
    simp [Start, findFreePort, createSSHClient, h0, hb]

/-- Witness for `start_bastion_steps`: the handshake-failure run on the
demo bastion tunnel, with both close events present. -/
theorem start_bastion_steps_witness :
    Start demoBastionTunnel envHandshakeFail =
      some
        ({ demoBastionTunnel with
            localPort := 47000
            bastionConn := some 3 },
        Except.error
          ("failed to create SSH connection through bastion: " ++
            "ssh: handshake failed"),
        [Ev.listenProbe ":0", Ev.closeProbe, Ev.loadKey "/keys/jump",
         Ev.dialed "bastion.internal" 2222 "jump" (some 3),
         Ev.relayDialed "ssh.internal" 22 (some 4),
         Ev.loadKey "/keys/primary",
         Ev.handshaked "ssh.internal" 22 "deploy" none,
         Ev.closedConn 4, Ev.closedClient 3]) :=
  (start_bastion_steps demoBastionTunnel envHandshakeFail 47000 rfl
      (by decide) rfl).2.2 3 4 "ssh: handshake failed" rfl rfl rfl rfl rfl

end DbBackup
